import Mathlib

/-!
Shallow embedding of `src/relay.py` (SatComInfrastructure telemetry relay).

Conventions of the embedding:
* Timestamps (`time.time()`) are natural-number seconds passed explicitly as a
  `now` argument; the code only compares differences, `now - last > timeout`,
  which we mirror with truncated `Nat` subtraction (the wall clock is
  monotone, so `now ≥ last` on every real trace).
* Message payloads are byte lists (`List Nat`, each element `< 256` on real
  inputs).
* I/O effects (an MQTT publish, an MQTT subscribe, a UDP send, an HTTP POST)
  are returned as explicit values next to the successor state instead of being
  performed.
* Each adapter guards its mutable state with a lock held across the whole
  handler body (`self.__lock`), so a run of the adapter is a sequence of
  atomic handler invocations; we model handlers as pure state transformers
  and runs as folds over event lists.
* Python name mangling matters for `MqttInterface`: `self.__client_bad_connection_flag`
  (declared in `__init__`) and `self.bad_connection_flag` (assigned in
  `__on_connect`) are *different* attributes; the state carries both.
-/

/-! ## Hex codec (Python 2 `str.encode('hex')` / `str.decode('hex')`) -/

/-- Value of one hexadecimal digit, as accepted by the Python 2 `hex` codec
(digits `0-9a-fA-F`; anything else raises). -/
def hexDigitVal (c : Char) : Option Nat :=
  if '0' ≤ c ∧ c ≤ '9' then some (c.toNat - '0'.toNat)
  else if 'a' ≤ c ∧ c ≤ 'f' then some (c.toNat - 'a'.toNat + 10)
  else if 'A' ≤ c ∧ c ≤ 'F' then some (c.toNat - 'A'.toNat + 10)
  else none

/-- `str.decode('hex')` on a character list: pairs of hex digits become bytes;
an odd-length input or a non-hex digit raises (modelled as `none`). -/
def decodeHexChars : List Char → Option (List Nat)
  | [] => some []
  | [_] => none
  | c1 :: c2 :: rest =>
    match hexDigitVal c1, hexDigitVal c2, decodeHexChars rest with
    | some hi, some lo, some bs => some ((16 * hi + lo) :: bs)
    | _, _, _ => none

/-- `str.decode('hex')` on a string. -/
def decodeHexStr (s : String) : Option (List Nat) :=
  decodeHexChars s.toList

/-- Lower-case hex digit character for `n < 16`. -/
def hexDigitChar (n : Nat) : Char :=
  if n < 10 then Char.ofNat ('0'.toNat + n) else Char.ofNat ('a'.toNat + n - 10)

/-- `str.encode('hex')`: two lower-case hex digits per byte. -/
def hexEncodeBytes : List Nat → List Char
  | [] => []
  | b :: rest => hexDigitChar (b / 16 % 16) :: hexDigitChar (b % 16) :: hexEncodeBytes rest

/-- `data.encode('hex')` as used by `IridiumInterface.post_message`. -/
def hexEncode (data : List Nat) : String :=
  String.mk (hexEncodeBytes data)

/-! ## LteInterface (relay.py lines 18-85) -/

/-- Python truthiness of an optional string, as tested by
`if self.__host_ip:` — `None` and the empty string are falsy. -/
def pyTruthyStr : Option String → Bool
  | none => false
  | some s => s != ""

/-- Mutable state of `LteInterface` (`__init__`, lines 19-31). The UDP socket
object and the tornado scheduler handles are I/O resources, not data, and are
not part of the state. -/
structure LteState where
  rxPort : Nat
  hostIp : Option String
  txPort : Option Nat
  messageCounter : Nat
  bytesCounter : Nat
  lastTime : Nat
  receiveTime : Nat
  timeout : Nat
deriving DecidableEq

/-- `LteInterface.__init__(rx_port, timeout)` constructed at time `now`. -/
def LteInterface.init (rxPort timeout now : Nat) : LteState :=
  { rxPort := rxPort, hostIp := none, txPort := none,
    messageCounter := 0, bytesCounter := 0,
    lastTime := now, receiveTime := now, timeout := timeout }

/-- `LteInterface.__on_receive_timeout` (lines 33-43), the 1 s periodic
liveness check, invoked at time `now`. -/
def LteInterface.on_receive_timeout (s : LteState) (now : Nat) : LteState :=
  if now - s.receiveTime > s.timeout then
    if pyTruthyStr s.hostIp then
      { s with hostIp := none, txPort := none,
               messageCounter := 0, bytesCounter := 0, lastTime := now }
    else
      { s with lastTime := now }
  else s

/-- `LteInterface.on_receive` (lines 45-62) for one datagram arriving at time
`now` from `(srcHost, srcPort)`. `dataSize` stands for
`sys.getsizeof(data) - 37`, which in CPython 2 is `len(data)` for a `str`.
The trailing `self.on_message_callback(data)` call is I/O outside the lock and
carries the unmodified datagram. -/
def LteInterface.on_receive (s : LteState) (now dataSize : Nat)
    (srcHost : String) (srcPort : Nat) : LteState :=
  let s1 := { s with receiveTime := now,
                     messageCounter := s.messageCounter + 1,
                     bytesCounter := s.bytesCounter + dataSize }
  let s2 := if s1.messageCounter % 1000 = 0
            then { s1 with lastTime := now, bytesCounter := 0 }
            else s1
  { s2 with hostIp := some srcHost, txPort := some srcPort }

/-- Outcome of `LteInterface.send` (lines 64-69): either a UDP transmission to
the learned address or a dropped payload (warning logged). -/
inductive SendResult where
  | sent (host : String) (port : Option Nat) (data : List Nat) : SendResult
  | dropped : SendResult
deriving DecidableEq

/-- `LteInterface.send(data)` (lines 64-69): the guard is
`self.__host_ip != None` (an identity test, not truthiness). -/
def LteInterface.send (s : LteState) (data : List Nat) : SendResult :=
  match s.hostIp with
  | some ip => SendResult.sent ip s.txPort data
  | none => SendResult.dropped

/-- A sequence of inbound datagrams `(now, dataSize, srcHost, srcPort)`
processed in order by `LteInterface.on_receive`. -/
def LteInterface.processReceives (s : LteState) :
    List (Nat × Nat × String × Nat) → LteState
  | [] => s
  | d :: rest =>
    LteInterface.processReceives
      (LteInterface.on_receive s d.1 d.2.1 d.2.2.1 d.2.2.2) rest

/-! ## IridiumInterface (relay.py lines 88-153) -/

/-- Association-list lookup for the first binding of a key (Python `dict`
read access; keys in the modelled dicts are unique). -/
def lookupConfirm (k : Nat) : List (Nat × Nat × List Nat) → Option (Nat × List Nat)
  | [] => none
  | (k1, v) :: rest => if k1 = k then some v else lookupConfirm k rest

/-- Removal of the binding of a key (Python `dict.pop` side effect). -/
def removeConfirm (k : Nat) : List (Nat × Nat × List Nat) → List (Nat × Nat × List Nat)
  | [] => []
  | (k1, v) :: rest => if k1 = k then rest else (k1, v) :: removeConfirm k rest

/-- Python `dict` assignment `d[key] = val` on a string-to-string dict. -/
def dictSet (key val : String) : List (String × String) → List (String × String)
  | [] => [(key, val)]
  | (k, v) :: rest => if k = key then (key, val) :: rest else (k, v) :: dictSet key val rest

/-- A `tornado.httpclient.HTTPRequest` built by `post_message` (line 144).
The live object is used as the `__waiting_for_confirm` key; object identity is
modelled by the fresh serial number `id`. -/
structure HTTPRequest where
  id : Nat
  url : String
  body : List (String × String)
deriving DecidableEq

/-- The response handed to `__on_message_sent`: `response.request` is the
identical request object (modelled by its serial number) and `response.error`
tells transport/application failure. -/
structure HTTPResponse where
  requestId : Nat
  error : Bool
deriving DecidableEq

/-- Deferred work spawned by `__on_message_sent` on error: the daemon thread
runs `__repost_message(data, idx)` (lines 118-120), i.e. sleeps `delaySeconds`
then calls `post_message(data, idx)` again. -/
inductive RetryAction where
  | noRetry : RetryAction
  | retryAfter (delaySeconds : Nat) (data : List Nat) (idx : Nat) : RetryAction
deriving DecidableEq

/-- Mutable state of `IridiumInterface` (`__init__`, lines 89-98).
`__waiting_for_confirm` maps the request object (its serial number) to
`(idx, data)`; `nextRequestId` generates the fresh identity of the next
request object. The `__threads` bookkeeping list holds thread handles
(runtime liveness, not data) and is not part of the state. -/
structure IridiumState where
  url : String
  port : Nat
  waitingForConfirm : List (Nat × Nat × List Nat)
  postData : List (String × String)
  nextRequestId : Nat
deriving DecidableEq

/-- `IridiumInterface.__init__(iridium_url, local_port, rock7_credentials)`. -/
def IridiumInterface.init (url : String) (port : Nat)
    (credentials : List (String × String)) : IridiumState :=
  { url := url, port := port, waitingForConfirm := [],
    postData := credentials, nextRequestId := 0 }

/-- `IridiumInterface.post_message(data, idx)` (lines 139-147): stores the
hex-encoded payload into the shared form dict, builds a fresh request, records
`(idx, data)` under that request's identity, and dispatches the POST. -/
def IridiumInterface.post_message (s : IridiumState) (data : List Nat) (idx : Nat) :
    IridiumState × HTTPRequest :=
  let postData := dictSet "data" (hexEncode data) s.postData
  let request : HTTPRequest := { id := s.nextRequestId, url := s.url, body := postData }
  ({ s with postData := postData,
            waitingForConfirm := (request.id, idx, data) :: s.waitingForConfirm,
            nextRequestId := s.nextRequestId + 1 },
   request)

/-- `IridiumInterface.__on_message_sent(response)` (lines 100-116):
`dict.pop(response.request)` retrieves and removes the pending entry (a
missing key raises `KeyError`, modelled as `none`); on `response.error` a
retry thread for the same `(data, idx)` with a 10-second sleep is started. -/
def IridiumInterface.on_message_sent (s : IridiumState) (r : HTTPResponse) :
    Option (IridiumState × RetryAction) :=
  match lookupConfirm r.requestId s.waitingForConfirm with
  | none => none
  | some (idx, data) =>
    some ({ s with waitingForConfirm := removeConfirm r.requestId s.waitingForConfirm },
          if r.error then RetryAction.retryAfter 10 data idx else RetryAction.noRetry)

/-- Outcome of `IridiumInterface.PostHandler.post`: the HTTP status sent back
to the provider and the payload passed to `on_msg_callback`, if any. -/
structure PostOutcome where
  status : Nat
  callbackPayload : Option (List Nat)
deriving DecidableEq

/-- First binding of a key in `self.request.arguments`
(maps a form-field name to the list of its values). -/
def lookupArg (key : String) : List (String × List String) → Option (List String)
  | [] => none
  | (k, v) :: rest => if k = key then some v else lookupArg key rest

/-- `IridiumInterface.PostHandler.post` (lines 122-137): reads
`self.request.arguments['data'][0]` and hex-decodes it; the bare `except:`
catches a missing field, an empty value list and a failed decode alike,
answering 400 without invoking the callback; on success the callback gets the
decoded bytes and `finish()` answers with the default status 200. -/
def postHandlerPost (arguments : List (String × List String)) : PostOutcome :=
  match (lookupArg "data" arguments).bind List.head? with
  | none => { status := 400, callbackPayload := none }
  | some field =>
    match decodeHexStr field with
    | none => { status := 400, callbackPayload := none }
    | some msg => { status := 200, callbackPayload := some msg }

/-! ## MqttInterface (relay.py lines 156-263) -/

/-- One MQTT publish as issued through `self.__client.publish(topic, data,
qos, retain)`. `payload = none` is Python `None` (the clearing null payload). -/
structure Publish where
  topic : String
  payload : Option (List Nat)
  qos : Nat
  retain : Bool
deriving DecidableEq

/-- One MQTT subscription as issued through `client.subscribe(topic, qos)`. -/
structure Subscribe where
  topic : String
  qos : Nat
deriving DecidableEq

/-- Mutable state of `MqttInterface` (`__init__`, lines 157-173).
`clientBadConnectionFlag` is the mangled attribute
`_MqttInterface__client_bad_connection_flag` declared at line 164 and polled
by the `__connect` wait loop; `badConnectionFlag` is the distinct, unmangled
attribute `bad_connection_flag` that line 222 assigns (absent until then,
modelled as initially `false`). -/
structure MqttState where
  brokerIp : String
  brokerPort : Nat
  brokerUser : String
  brokerPwd : String
  clientConnectedFlag : Bool
  clientBadConnectionFlag : Bool
  badConnectionFlag : Bool
  publishCounter : Nat
  iridiumCounter : Nat
  iridiumTimeout : Nat
  iridiumQueueCleared : Bool
  lastMessageReceived : Nat
deriving DecidableEq

/-- `MqttInterface.__init__(ip, port, user, pwd, iridium_timeout)` constructed
at time `now` (line 169 stamps `time.time()`). -/
def MqttInterface.init (ip : String) (port : Nat) (user pwd : String)
    (iridiumTimeout now : Nat) : MqttState :=
  { brokerIp := ip, brokerPort := port, brokerUser := user, brokerPwd := pwd,
    clientConnectedFlag := false, clientBadConnectionFlag := false,
    badConnectionFlag := false, publishCounter := 1, iridiumCounter := 0,
    iridiumTimeout := iridiumTimeout, iridiumQueueCleared := false,
    lastMessageReceived := now }

/-- `MqttInterface.__on_receive_timeout` (lines 175-181), the 2.5 s periodic
stale-queue check, invoked at time `now`: when the SatCom silence exceeds the
Iridium timeout and the queue is not yet cleared, publishes a retained null
payload with `qos=0` and marks the queue cleared. -/
def MqttInterface.on_receive_timeout (s : MqttState) (now : Nat) :
    MqttState × List Publish :=
  if now - s.lastMessageReceived > s.iridiumTimeout ∧ s.iridiumQueueCleared = false then
    ({ s with iridiumQueueCleared := true },
     [{ topic := "telem/SatCom_from_plane", payload := none, qos := 0, retain := true }])
  else (s, [])

/-- `MqttInterface.__on_connect` (lines 206-223): code 0 sets the connected
flag and subscribes both inbound topics at `qos=2`; code 3 only logs; any
other code assigns `self.bad_connection_flag = True` — which, because the
declared flag is the mangled `__client_bad_connection_flag`, creates a new
attribute instead of setting the declared one. -/
def MqttInterface.on_connect (s : MqttState) (rc : Nat) :
    MqttState × List Subscribe :=
  if rc = 0 then
    ({ s with clientConnectedFlag := true },
     [{ topic := "telem/LTE_to_plane", qos := 2 },
      { topic := "telem/SatCom_to_plane", qos := 2 }])
  else if rc = 3 then (s, [])
  else ({ s with badConnectionFlag := true }, [])

/-- `MqttInterface.__on_disconnect` (lines 225-227). -/
def MqttInterface.on_disconnect (s : MqttState) : MqttState :=
  { s with clientConnectedFlag := false }

/-- Exit condition of the `__connect` wait loop (line 196):
`while not self.__client_connected_flag and not self.__client_bad_connection_flag`
keeps spinning, so the loop exits exactly when one of the two declared flags
becomes true. -/
def connectWaitExits (s : MqttState) : Bool :=
  s.clientConnectedFlag || s.clientBadConnectionFlag

/-- `MqttInterface.__publish_message(topic, data, retain)` (lines 238-241):
always `qos=2`; bumps the publish counter. -/
def MqttInterface.publish_message (s : MqttState) (topic : String)
    (data : List Nat) (retain : Bool) : MqttState × Publish :=
  ({ s with publishCounter := s.publishCounter + 1 },
   { topic := topic, payload := some data, qos := 2, retain := retain })

/-- `MqttInterface.publish_lte_message(data)` (lines 243-244). -/
def MqttInterface.publish_lte_message (s : MqttState) (data : List Nat) :
    MqttState × Publish :=
  MqttInterface.publish_message s "telem/LTE_from_plane" data false

/-- `MqttInterface.publish_satcom_message(data)` (lines 246-251), invoked at
time `now`: under the lock, resets the cleared flag, stamps the receive time,
then publishes retained. -/
def MqttInterface.publish_satcom_message (s : MqttState) (now : Nat)
    (data : List Nat) : MqttState × Publish :=
  MqttInterface.publish_message
    { s with iridiumQueueCleared := false, lastMessageReceived := now }
    "telem/SatCom_from_plane" data true

/-- The two lock-serialised events that touch `__iridium_queue_cleared` after
construction: a fresh SatCom message relayed via `publish_satcom_message`, and
a firing of the periodic `__on_receive_timeout` check. -/
inductive MqttEvent where
  | satcomMsg (now : Nat) (data : List Nat) : MqttEvent
  | timeoutCheck (now : Nat) : MqttEvent
deriving DecidableEq

/-- Is the event a fresh SatCom message from the aircraft? -/
def isSatcomEvent : MqttEvent → Bool
  | MqttEvent.satcomMsg _ _ => true
  | MqttEvent.timeoutCheck _ => false

/-- One serialised handler invocation together with the publishes it issues. -/
def MqttInterface.step (s : MqttState) : MqttEvent → MqttState × List Publish
  | MqttEvent.satcomMsg now data =>
    let p := MqttInterface.publish_satcom_message s now data
    (p.1, [p.2])
  | MqttEvent.timeoutCheck now => MqttInterface.on_receive_timeout s now

/-- A run of serialised events, collecting all publishes in order. -/
def MqttInterface.run (s : MqttState) : List MqttEvent → MqttState × List Publish
  | [] => (s, [])
  | e :: es =>
    let p := MqttInterface.step s e
    let q := MqttInterface.run p.1 es
    (q.1, p.2 ++ q.2)

/-- Is the publish the retained-null clearing publish? -/
def isClearing (p : Publish) : Bool :=
  p.topic == "telem/SatCom_from_plane" && p.payload.isNone && p.retain

/-- Number of clearing publishes in an emitted publish list. -/
def countClearing (ps : List Publish) : Nat :=
  (ps.filter isClearing).length

/-! ## Relay wiring (relay.py lines 299-310) -/

/-- The composition root wires `ii.on_message_callback =
mi.publish_satcom_message` (line 306): an inbound Iridium MO POST handled at
time `now` updates the MQTT state exactly when the handler invokes the
callback, and answers the provider either way. -/
def iridiumInbound (m : MqttState) (now : Nat)
    (arguments : List (String × List String)) : MqttState × PostOutcome :=
  let o := postHandlerPost arguments
  match o.callbackPayload with
  | some msg => ((MqttInterface.publish_satcom_message m now msg).1, o)
  | none => (m, o)

/-! ## Helper lemmas -/

/-- When the SatCom silence exceeds the Iridium timeout and the queue is not
yet cleared, the periodic check publishes the retained null payload and marks
the queue cleared. -/
lemma on_receive_timeout_fires (s : MqttState) (now : Nat)
    (h1 : now - s.lastMessageReceived > s.iridiumTimeout)
    (h2 : s.iridiumQueueCleared = false) :
    MqttInterface.on_receive_timeout s now =
      ({ s with iridiumQueueCleared := true },
       [{ topic := "telem/SatCom_from_plane", payload := none, qos := 0, retain := true }]) := by
  unfold MqttInterface.on_receive_timeout
  rw [if_pos ⟨h1, h2⟩]

/-- Once the queue is cleared, the periodic check is a no-op. -/
lemma on_receive_timeout_skips_cleared (s : MqttState) (now : Nat)
    (h : s.iridiumQueueCleared = true) :
    MqttInterface.on_receive_timeout s now = (s, []) := by
  unfold MqttInterface.on_receive_timeout
  rw [if_neg]
  intro hc
  rw [h] at hc
  exact Bool.noConfusion hc.2

/-- When the silence has not yet exceeded the timeout, the periodic check is a
no-op. -/
lemma on_receive_timeout_skips_recent (s : MqttState) (now : Nat)
    (h : ¬ now - s.lastMessageReceived > s.iridiumTimeout) :
    MqttInterface.on_receive_timeout s now = (s, []) := by
  unfold MqttInterface.on_receive_timeout
  rw [if_neg]
  intro hc
  exact h hc.1

/-- In a run with no fresh SatCom message, a cleared queue emits no clearing
publish at all. -/
lemma run_cleared_eq_zero (es : List MqttEvent) : ∀ s : MqttState,
    s.iridiumQueueCleared = true → (∀ e ∈ es, isSatcomEvent e = false) →
    countClearing (MqttInterface.run s es).2 = 0 := by
  induction es with
  | nil => intro s _ _; rfl
  | cons e es ih =>
    intro s hs hes
    match e with
    | MqttEvent.satcomMsg now data =>
      exact absurd (hes _ (List.mem_cons_self _ _)) (by simp [isSatcomEvent])
    | MqttEvent.timeoutCheck now =>
      show countClearing (MqttInterface.run s (MqttEvent.timeoutCheck now :: es)).2 = 0
      unfold MqttInterface.run
      simp only [MqttInterface.step, on_receive_timeout_skips_cleared s now hs]
      have := ih s hs (fun e he => hes e (List.mem_cons_of_mem _ he))
      simpa [countClearing] using this

/-- `countClearing` distributes over concatenation of publish lists. -/
lemma countClearing_append (ps qs : List Publish) :
    countClearing (ps ++ qs) = countClearing ps + countClearing qs := by
  simp [countClearing, List.filter_append]

/-- In a run with no fresh SatCom message, at most one clearing publish is
emitted, from any starting state. -/
lemma run_no_satcom_le_one (es : List MqttEvent) : ∀ s : MqttState,
    (∀ e ∈ es, isSatcomEvent e = false) →
    countClearing (MqttInterface.run s es).2 ≤ 1 := by
  induction es with
  | nil => intro s _; exact Nat.zero_le 1
  | cons e es ih =>
    intro s hes
    match e with
    | MqttEvent.satcomMsg now data =>
      exact absurd (hes _ (List.mem_cons_self _ _)) (by simp [isSatcomEvent])
    | MqttEvent.timeoutCheck now =>
      have hes' : ∀ e ∈ es, isSatcomEvent e = false :=
        fun e he => hes e (List.mem_cons_of_mem _ he)
      show countClearing (MqttInterface.run s (MqttEvent.timeoutCheck now :: es)).2 ≤ 1
      unfold MqttInterface.run
      by_cases hclr : s.iridiumQueueCleared = true
      · simp only [MqttInterface.step, on_receive_timeout_skips_cleared s now hclr]
        simpa [countClearing] using ih s hes'
      · rw [Bool.not_eq_true] at hclr
        by_cases htime : now - s.lastMessageReceived > s.iridiumTimeout
        · simp only [MqttInterface.step, on_receive_timeout_fires s now htime hclr]
          rw [countClearing_append]
          have h0 := run_cleared_eq_zero es { s with iridiumQueueCleared := true } rfl hes'
          rw [h0]
          have h1 : countClearing
              [{ topic := "telem/SatCom_from_plane", payload := none,
                 qos := 0, retain := true }] = 1 := by decide
          omega
        · simp only [MqttInterface.step, on_receive_timeout_skips_recent s now htime]
          simpa [countClearing] using ih s hes'

/-! ## Claim theorems: MqttInterface -/

/-- C1: evaluation at the failing input. For connect result code 5 (not
authorised) on a freshly constructed `MqttInterface`, `__on_connect` assigns
the unmangled attribute `bad_connection_flag`, while the declared, mangled
`__client_bad_connection_flag` that the `__connect` wait loop polls stays
false — so the wait loop's exit condition does not become true and the
process does not reach the `sys.exit()` call. -/
theorem mqtt_on_connect_bad_rc_flag_mismatch :
    (MqttInterface.on_connect
      (MqttInterface.init "broker" 1883 "user" "pwd" 30 0) 5).1.badConnectionFlag = true ∧
    (MqttInterface.on_connect
      (MqttInterface.init "broker" 1883 "user" "pwd" 30 0) 5).1.clientBadConnectionFlag = false ∧
    connectWaitExits
      (MqttInterface.on_connect
        (MqttInterface.init "broker" 1883 "user" "pwd" 30 0) 5).1 = false := by
  decide

/-- C2, counterexample: the stale-queue clearing publish fired by
`__on_receive_timeout` (line 178) uses `qos=0`, so not every publish performed
by `MqttInterface` uses QoS 2. Concrete run: a fresh interface with Iridium
timeout 5 s, checked at `now = 6`. -/
theorem mqtt_clearing_publish_qos_zero :
    (MqttInterface.on_receive_timeout
      (MqttInterface.init "broker" 1883 "user" "pwd" 5 0) 6).2 =
      [{ topic := "telem/SatCom_from_plane", payload := none, qos := 0, retain := true }] ∧
    ¬ (∀ p ∈ (MqttInterface.on_receive_timeout
        (MqttInterface.init "broker" 1883 "user" "pwd" 5 0) 6).2, p.qos = 2) := by
  decide

/-- C2, amended: every MQTT subscribe, and every publish issued through
`__publish_message` (hence `publish_lte_message` and
`publish_satcom_message`), uses QoS 2; the retained-null clearing publish of
the stale-queue timeout check is the exception and uses QoS 0. -/
theorem mqtt_qos_discipline (s : MqttState) (rc : Nat) (topic : String)
    (data : List Nat) (retainFlag : Bool) (now : Nat) :
    ((MqttInterface.on_connect s rc).2.all (fun sub => sub.qos == 2)) = true ∧
    (MqttInterface.publish_message s topic data retainFlag).2.qos = 2 ∧
    (MqttInterface.publish_lte_message s data).2.qos = 2 ∧
    (MqttInterface.publish_satcom_message s now data).2.qos = 2 ∧
    ((MqttInterface.on_receive_timeout s now).2.all (fun p => p.qos == 0)) = true := by
  refine ⟨?_, rfl, rfl, rfl, ?_⟩
  · unfold MqttInterface.on_connect
    split
    · rfl
    · split
      · rfl
      · rfl
  · unfold MqttInterface.on_receive_timeout
    split
    · rfl
    · rfl

/-- C3: the `__iridium_queue_cleared` life cycle. (1) a relayed SatCom
message (`publish_satcom_message`) always resets the flag to false; (2) the
timeout check never resets it to false, so only `publish_satcom_message` does;
(3) the flag turns from false to true only when the timeout check fires with
the silence in excess of the Iridium timeout, and that firing emits exactly
the retained-null clearing publish; (4) in any run without a fresh SatCom
message the clearing publish is emitted at most once; (5) from an
already-cleared state such a run emits no clearing publish at all. -/
theorem mqtt_queue_cleared_invariant :
    (∀ (s : MqttState) (now : Nat) (data : List Nat),
      (MqttInterface.step s (MqttEvent.satcomMsg now data)).1.iridiumQueueCleared = false) ∧
    (∀ (s : MqttState) (now : Nat), s.iridiumQueueCleared = true →
      (MqttInterface.step s (MqttEvent.timeoutCheck now)).1.iridiumQueueCleared = true) ∧
    (∀ (s : MqttState) (now : Nat), s.iridiumQueueCleared = false →
      (MqttInterface.step s (MqttEvent.timeoutCheck now)).1.iridiumQueueCleared = true →
      now - s.lastMessageReceived > s.iridiumTimeout ∧
      (MqttInterface.step s (MqttEvent.timeoutCheck now)).2 =
        [{ topic := "telem/SatCom_from_plane", payload := none, qos := 0, retain := true }]) ∧
    (∀ (s : MqttState) (es : List MqttEvent),
      (∀ e ∈ es, isSatcomEvent e = false) →
      countClearing (MqttInterface.run s es).2 ≤ 1) ∧
    (∀ (s : MqttState) (es : List MqttEvent), s.iridiumQueueCleared = true →
      (∀ e ∈ es, isSatcomEvent e = false) →
      countClearing (MqttInterface.run s es).2 = 0) := by
  refine ⟨fun s now data => rfl, ?_, ?_, fun s es h => run_no_satcom_le_one es s h,
    fun s es h1 h2 => run_cleared_eq_zero es s h1 h2⟩
  · intro s now h
    show (MqttInterface.on_receive_timeout s now).1.iridiumQueueCleared = true
    rw [on_receive_timeout_skips_cleared s now h]
    exact h
  · intro s now hfalse htrue
    by_cases htime : now - s.lastMessageReceived > s.iridiumTimeout
    · refine ⟨htime, ?_⟩
      show (MqttInterface.on_receive_timeout s now).2 = _
      rw [on_receive_timeout_fires s now htime hfalse]
    · exfalso
      have := on_receive_timeout_skips_recent s now htime
      have h1 : (MqttInterface.step s (MqttEvent.timeoutCheck now)).1 = s := by
        show (MqttInterface.on_receive_timeout s now).1 = s
        rw [this]
      rw [h1, hfalse] at htrue
      exact Bool.noConfusion htrue

/-- C3, witness: a concrete cleared-flag run — a fresh interface with timeout
1, run through two consecutive timeout checks at times 3 and 4 with no SatCom
message in between, emits at most one clearing publish. -/
theorem mqtt_queue_cleared_invariant_witness :
    countClearing (MqttInterface.run
      (MqttInterface.init "broker" 1883 "user" "pwd" 1 0)
      [MqttEvent.timeoutCheck 3, MqttEvent.timeoutCheck 4]).2 ≤ 1 :=
  mqtt_queue_cleared_invariant.2.2.2.1
    (MqttInterface.init "broker" 1883 "user" "pwd" 1 0)
    [MqttEvent.timeoutCheck 3, MqttEvent.timeoutCheck 4] (by decide)

/-- C10: a freshly constructed `MqttInterface` stamps
`__last_message_received` with the construction time `t0`, so once
`now - t0` exceeds the Iridium timeout the first firing of the periodic check
publishes the retained-null clearing payload — even though no SatCom message
was ever relayed — marks the queue cleared, and every later firing (at any
time `now2`, with no intervening SatCom message) publishes nothing. -/
theorem mqtt_fresh_instance_clears_once (ip : String) (port : Nat)
    (user pwd : String) (tmo t0 now now2 : Nat) (h : now - t0 > tmo) :
    (MqttInterface.on_receive_timeout
      (MqttInterface.init ip port user pwd tmo t0) now).2 =
      [{ topic := "telem/SatCom_from_plane", payload := none, qos := 0, retain := true }] ∧
    (MqttInterface.on_receive_timeout
      (MqttInterface.init ip port user pwd tmo t0) now).1.iridiumQueueCleared = true ∧
    (MqttInterface.on_receive_timeout
      (MqttInterface.on_receive_timeout
        (MqttInterface.init ip port user pwd tmo t0) now).1 now2).2 = [] := by
  have hfire := on_receive_timeout_fires (MqttInterface.init ip port user pwd tmo t0) now h rfl
  refine ⟨?_, ?_, ?_⟩
  · rw [hfire]
  · rw [hfire]
  · rw [hfire]
    exact congrArg Prod.snd (on_receive_timeout_skips_cleared _ now2 rfl)

/-- C10, witness: broker config with Iridium timeout 5, constructed at time 0
and checked at times 6 and then 9. -/
theorem mqtt_fresh_instance_clears_once_witness :
    (6 : Nat) - 0 > 5 ∧
    ((MqttInterface.on_receive_timeout
        (MqttInterface.init "broker" 1883 "user" "pwd" 5 0) 6).2 =
        [{ topic := "telem/SatCom_from_plane", payload := none, qos := 0, retain := true }] ∧
      (MqttInterface.on_receive_timeout
        (MqttInterface.init "broker" 1883 "user" "pwd" 5 0) 6).1.iridiumQueueCleared = true ∧
      (MqttInterface.on_receive_timeout
        (MqttInterface.on_receive_timeout
          (MqttInterface.init "broker" 1883 "user" "pwd" 5 0) 6).1 9).2 = []) :=
  ⟨by decide, mqtt_fresh_instance_clears_once "broker" 1883 "user" "pwd" 5 0 6 9 (by decide)⟩

/-! ## Claim theorems: LteInterface -/

/-- C4: once the liveness check fires in a state whose silence exceeds the
timeout, the learned peer address is cleared and every subsequent `send` drops
its payload without a UDP transmission. The hypotheses `h2` and `h3` are
reachability facts about real states: `recvfrom` never reports the empty
string as a source host, and the host and port are always set and cleared
together. -/
theorem lte_silence_invalidates_send (s : LteState) (now : Nat)
    (h1 : now - s.receiveTime > s.timeout)
    (h2 : s.hostIp ≠ some "")
    (h3 : s.hostIp = none → s.txPort = none) :
    (LteInterface.on_receive_timeout s now).hostIp = none ∧
    (LteInterface.on_receive_timeout s now).txPort = none ∧
    ∀ data : List Nat,
      LteInterface.send (LteInterface.on_receive_timeout s now) data =
        SendResult.dropped := by
  unfold LteInterface.on_receive_timeout
  rw [if_pos h1]
  match hip : s.hostIp with
  | none =>
    rw [show pyTruthyStr none = false from rfl]
    exact ⟨rfl, h3 hip, fun data => rfl⟩
  | some ip =>
    have hne : ip ≠ "" := fun he => h2 (he ▸ hip)
    have : pyTruthyStr (some ip) = true := by
      simp [pyTruthyStr, bne_iff_ne, hne]
    rw [this]
    exact ⟨rfl, rfl, fun data => rfl⟩

/-- C4, witness: a state that learned peer `(1.2.3.4, 5000)` at time 0 with a
5 s timeout, checked at time 6. -/
theorem lte_silence_invalidates_send_witness :
    ((6 : Nat) - 0 > 5 ∧
      ({ rxPort := 14550, hostIp := some "1.2.3.4", txPort := some 5000,
         messageCounter := 3, bytesCounter := 9, lastTime := 0,
         receiveTime := 0, timeout := 5 } : LteState).hostIp ≠ some "") ∧
    LteInterface.send
      (LteInterface.on_receive_timeout
        { rxPort := 14550, hostIp := some "1.2.3.4", txPort := some 5000,
          messageCounter := 3, bytesCounter := 9, lastTime := 0,
          receiveTime := 0, timeout := 5 } 6) [104, 105] = SendResult.dropped :=
  ⟨⟨by decide, by decide⟩,
   (lte_silence_invalidates_send
      { rxPort := 14550, hostIp := some "1.2.3.4", txPort := some 5000,
        messageCounter := 3, bytesCounter := 9, lastTime := 0,
        receiveTime := 0, timeout := 5 } 6
      (by decide) (by decide) (by decide)).2.2 [104, 105]⟩

/-- C8: after any sequence of inbound datagrams ending with one from
`(srcHost, srcPort)`, the learned peer address equals that last source,
whatever the prior state. -/
theorem lte_peer_address_tracks_last_datagram (pre : List (Nat × Nat × String × Nat)) :
    ∀ (s : LteState) (now dataSize : Nat) (srcHost : String) (srcPort : Nat),
    (LteInterface.processReceives s
        (pre ++ [(now, dataSize, srcHost, srcPort)])).hostIp = some srcHost ∧
    (LteInterface.processReceives s
        (pre ++ [(now, dataSize, srcHost, srcPort)])).txPort = some srcPort := by
  induction pre with
  | nil => intro s now dataSize srcHost srcPort; exact ⟨rfl, rfl⟩
  | cons d pre ih =>
    intro s now dataSize srcHost srcPort
    exact ih (LteInterface.on_receive s d.1 d.2.1 d.2.2.1 d.2.2.2)
      now dataSize srcHost srcPort

/-- `on_receive` always increments the message counter and never resets it. -/
lemma on_receive_messageCounter (s : LteState) (now dataSize : Nat)
    (srcHost : String) (srcPort : Nat) :
    (LteInterface.on_receive s now dataSize srcHost srcPort).messageCounter =
      s.messageCounter + 1 := by
  unfold LteInterface.on_receive
  dsimp only
  split
  · rfl
  · rfl

/-- At a 1000th datagram the byte counter is reset. -/
lemma on_receive_bytesCounter_reset (s : LteState) (now dataSize : Nat)
    (srcHost : String) (srcPort : Nat)
    (h : (s.messageCounter + 1) % 1000 = 0) :
    (LteInterface.on_receive s now dataSize srcHost srcPort).bytesCounter = 0 := by
  unfold LteInterface.on_receive
  dsimp only
  rw [if_pos h]

/-- Processing a datagram sequence adds its length to the message counter. -/
lemma processReceives_messageCounter (ds : List (Nat × Nat × String × Nat)) :
    ∀ s : LteState,
    (LteInterface.processReceives s ds).messageCounter =
      s.messageCounter + ds.length := by
  induction ds with
  | nil => intro s; rfl
  | cons d ds ih =>
    intro s
    show (LteInterface.processReceives
      (LteInterface.on_receive s d.1 d.2.1 d.2.2.1 d.2.2.2) ds).messageCounter = _
    rw [ih, on_receive_messageCounter]
    simp [List.length_cons]
    omega

/-- Processing a sequence ending in one datagram is processing the prefix,
then receiving that datagram. -/
lemma processReceives_append (ds : List (Nat × Nat × String × Nat))
    (d : Nat × Nat × String × Nat) : ∀ s : LteState,
    LteInterface.processReceives s (ds ++ [d]) =
      LteInterface.on_receive (LteInterface.processReceives s ds)
        d.1 d.2.1 d.2.2.1 d.2.2.2 := by
  induction ds with
  | nil => intro s; rfl
  | cons e ds ih =>
    intro s
    exact ih (LteInterface.on_receive s e.1 e.2.1 e.2.2.1 e.2.2.2)

/-- C9, counterexample: after exactly 1000 inbound datagrams on a fresh
interface, `__bytes_counter` is back to 0 but `__message_counter` is 1000,
not 0 — the message counter is not reset at the 1000th datagram. -/
theorem lte_message_counter_not_reset_at_1000 :
    (LteInterface.processReceives (LteInterface.init 14550 5 0)
        (List.replicate 1000 (0, 1, "1.2.3.4", 5000))).messageCounter = 1000 ∧
    (LteInterface.processReceives (LteInterface.init 14550 5 0)
        (List.replicate 1000 (0, 1, "1.2.3.4", 5000))).bytesCounter = 0 ∧
    (1000 : Nat) ≠ 0 := by
  have hc : (LteInterface.processReceives (LteInterface.init 14550 5 0)
      (List.replicate 1000 (0, 1, "1.2.3.4", 5000))).messageCounter = 1000 := by
    rw [processReceives_messageCounter, List.length_replicate,
      show (LteInterface.init 14550 5 0).messageCounter = 0 from rfl, Nat.zero_add]
  refine ⟨hc, ?_, by decide⟩
  have hsplit : List.replicate 1000 ((0 : Nat), (1 : Nat), "1.2.3.4", (5000 : Nat)) =
      List.replicate 999 (0, 1, "1.2.3.4", 5000) ++ [(0, 1, "1.2.3.4", 5000)] :=
    List.replicate_succ' 999 _ ▸ rfl
  rw [hsplit, processReceives_append]
  apply on_receive_bytesCounter_reset
  rw [processReceives_messageCounter, List.length_replicate,
    show (LteInterface.init 14550 5 0).messageCounter = 0 from rfl, Nat.zero_add]

/-- C9, amended: at each 1000th inbound datagram (after the throughput log
line) `__bytes_counter` is reset to 0 and the window timestamp is moved, but
`__message_counter` is not reset there — it simply keeps incrementing, and
both counters are reset only when the silence timeout fires with a known
peer. -/
theorem lte_window_reset_semantics (s : LteState) (now dataSize : Nat)
    (srcHost : String) (srcPort : Nat)
    (h : (s.messageCounter + 1) % 1000 = 0) :
    (LteInterface.on_receive s now dataSize srcHost srcPort).bytesCounter = 0 ∧
    (LteInterface.on_receive s now dataSize srcHost srcPort).lastTime = now ∧
    (LteInterface.on_receive s now dataSize srcHost srcPort).messageCounter =
      s.messageCounter + 1 ∧
    (LteInterface.on_receive s now dataSize srcHost srcPort).messageCounter ≠ 0 ∧
    (now - s.receiveTime > s.timeout → pyTruthyStr s.hostIp = true →
      (LteInterface.on_receive_timeout s now).messageCounter = 0 ∧
      (LteInterface.on_receive_timeout s now).bytesCounter = 0) := by
  unfold LteInterface.on_receive
  simp only []
  rw [if_pos h]
  refine ⟨rfl, rfl, rfl, Nat.succ_ne_zero _, ?_⟩
  intro ht htruthy
  unfold LteInterface.on_receive_timeout
  rw [if_pos ht, if_pos htruthy]
  exact ⟨rfl, rfl⟩

/-- C9, witness: the 1000th datagram (message counter at 999) resets the byte
counter but leaves the message counter at 1000; the same state, silent past
its 5 s timeout, has both counters reset by the liveness check. -/
theorem lte_window_reset_semantics_witness :
    ((999 : Nat) + 1) % 1000 = 0 ∧
    ((LteInterface.on_receive
        { rxPort := 14550, hostIp := some "1.2.3.4", txPort := some 5000,
          messageCounter := 999, bytesCounter := 7, lastTime := 0,
          receiveTime := 0, timeout := 5 } 6 3 "1.2.3.4" 5000).bytesCounter = 0 ∧
      (LteInterface.on_receive
        { rxPort := 14550, hostIp := some "1.2.3.4", txPort := some 5000,
          messageCounter := 999, bytesCounter := 7, lastTime := 0,
          receiveTime := 0, timeout := 5 } 6 3 "1.2.3.4" 5000).lastTime = 6 ∧
      (LteInterface.on_receive
        { rxPort := 14550, hostIp := some "1.2.3.4", txPort := some 5000,
          messageCounter := 999, bytesCounter := 7, lastTime := 0,
          receiveTime := 0, timeout := 5 } 6 3 "1.2.3.4" 5000).messageCounter = 999 + 1 ∧
      (LteInterface.on_receive
        { rxPort := 14550, hostIp := some "1.2.3.4", txPort := some 5000,
          messageCounter := 999, bytesCounter := 7, lastTime := 0,
          receiveTime := 0, timeout := 5 } 6 3 "1.2.3.4" 5000).messageCounter ≠ 0 ∧
      ((6 : Nat) - 0 > 5 → pyTruthyStr (some "1.2.3.4") = true →
        (LteInterface.on_receive_timeout
          { rxPort := 14550, hostIp := some "1.2.3.4", txPort := some 5000,
            messageCounter := 999, bytesCounter := 7, lastTime := 0,
            receiveTime := 0, timeout := 5 } 6).messageCounter = 0 ∧
        (LteInterface.on_receive_timeout
          { rxPort := 14550, hostIp := some "1.2.3.4", txPort := some 5000,
            messageCounter := 999, bytesCounter := 7, lastTime := 0,
            receiveTime := 0, timeout := 5 } 6).bytesCounter = 0)) :=
  ⟨by decide,
   lte_window_reset_semantics
     { rxPort := 14550, hostIp := some "1.2.3.4", txPort := some 5000,
       messageCounter := 999, bytesCounter := 7, lastTime := 0,
       receiveTime := 0, timeout := 5 } 6 3 "1.2.3.4" 5000 (by decide)⟩

/-! ## Claim theorems: IridiumInterface -/

/-- A key bound nowhere in the map looks up to nothing. -/
lemma lookupConfirm_eq_none_of_not_mem (k : Nat) :
    ∀ l : List (Nat × Nat × List Nat), k ∉ l.map Prod.fst →
    lookupConfirm k l = none := by
  intro l
  induction l with
  | nil => intro _; rfl
  | cons p rest ih =>
    intro h
    show (if p.1 = k then some p.2 else lookupConfirm k rest) = none
    rw [if_neg, ih]
    · intro hmem
      exact h (List.mem_cons_of_mem _ hmem)
    · intro he
      exact h (he ▸ List.mem_cons_self _ _)

/-- A successful lookup means the key is among the map's keys. -/
lemma mem_of_lookupConfirm_isSome (k : Nat) :
    ∀ l : List (Nat × Nat × List Nat), (lookupConfirm k l).isSome →
    k ∈ l.map Prod.fst := by
  intro l
  induction l with
  | nil => intro h; exact absurd h (by simp [lookupConfirm])
  | cons p rest ih =>
    intro h
    by_cases he : p.1 = k
    · exact he ▸ List.mem_cons_self _ _
    · apply List.mem_cons_of_mem
      apply ih
      have : lookupConfirm k (p :: rest) = lookupConfirm k rest := by
        show (if p.1 = k then some p.2 else lookupConfirm k rest) = _
        rw [if_neg he]
      rw [this] at h
      exact h

/-- Removal keeps the map a sublist of itself, so keys are preserved up to
deletion. -/
lemma removeConfirm_sublist (k : Nat) :
    ∀ l : List (Nat × Nat × List Nat), (removeConfirm k l).Sublist l := by
  intro l
  induction l with
  | nil => exact List.Sublist.refl []
  | cons p rest ih =>
    show (if p.1 = k then rest else p :: removeConfirm k rest).Sublist (p :: rest)
    by_cases he : p.1 = k
    · rw [if_pos he]
      exact List.sublist_cons_self _ _
    · rw [if_neg he]
      exact List.Sublist.cons₂ p ih

/-- Removing a key leaves every other key's binding unchanged. -/
lemma lookupConfirm_removeConfirm_ne (k k1 : Nat) (hne : k1 ≠ k) :
    ∀ l : List (Nat × Nat × List Nat),
    lookupConfirm k1 (removeConfirm k l) = lookupConfirm k1 l := by
  intro l
  induction l with
  | nil => rfl
  | cons p rest ih =>
    show lookupConfirm k1 (if p.1 = k then rest else p :: removeConfirm k rest) =
      (if p.1 = k1 then some p.2 else lookupConfirm k1 rest)
    by_cases he : p.1 = k
    · rw [if_pos he, if_neg (he ▸ fun h => hne h.symm)]
    · rw [if_neg he]
      show (if p.1 = k1 then some p.2 else lookupConfirm k1 (removeConfirm k rest)) = _
      by_cases he1 : p.1 = k1
      · rw [if_pos he1, if_pos he1]
      · rw [if_neg he1, if_neg he1, ih]

/-- With duplicate-free keys, removing a key removes its binding entirely. -/
lemma lookupConfirm_removeConfirm_self (k : Nat) :
    ∀ l : List (Nat × Nat × List Nat), (l.map Prod.fst).Nodup →
    lookupConfirm k (removeConfirm k l) = none := by
  intro l
  induction l with
  | nil => intro _; rfl
  | cons p rest ih =>
    intro hnd
    have hnd' : (rest.map Prod.fst).Nodup := (List.nodup_cons.mp hnd).2
    show lookupConfirm k (if p.1 = k then rest else p :: removeConfirm k rest) = none
    by_cases he : p.1 = k
    · rw [if_pos he]
      apply lookupConfirm_eq_none_of_not_mem
      exact he ▸ (List.nodup_cons.mp hnd).1
    · rw [if_neg he]
      show (if p.1 = k then some p.2 else lookupConfirm k (removeConfirm k rest)) = none
      rw [if_neg he]
      exact ih hnd'

/-- The reachability invariant of `__waiting_for_confirm`: pending keys are
pairwise distinct (each is the identity of a distinct live request object) and
all precede the identity of the next request to be created. -/
def iridiumInv (s : IridiumState) : Prop :=
  (s.waitingForConfirm.map Prod.fst).Nodup ∧
  ∀ k ∈ s.waitingForConfirm.map Prod.fst, k < s.nextRequestId

/-- Looking up the key just bound at the head of the map. -/
lemma lookupConfirm_cons_self (k idx : Nat) (data : List Nat)
    (l : List (Nat × Nat × List Nat)) :
    lookupConfirm k ((k, idx, data) :: l) = some (idx, data) := by
  show (if k = k then some (idx, data) else lookupConfirm k l) = some (idx, data)
  rw [if_pos rfl]

/-- Removing the key bound at the head of the map drops exactly that entry. -/
lemma removeConfirm_cons_self (k idx : Nat) (data : List Nat)
    (l : List (Nat × Nat × List Nat)) :
    removeConfirm k ((k, idx, data) :: l) = l := by
  show (if k = k then l else (k, idx, data) :: removeConfirm k l) = l
  rw [if_pos rfl]

/-- `__on_message_sent` on a response whose request is pending: the entry is
retrieved and removed, and the error path spawns the 10-second retry of the
same payload and sequence index. -/
lemma on_message_sent_eq_some (s : IridiumState) (r : HTTPResponse)
    (idx : Nat) (data : List Nat)
    (h : lookupConfirm r.requestId s.waitingForConfirm = some (idx, data)) :
    IridiumInterface.on_message_sent s r =
      some ({ s with waitingForConfirm := removeConfirm r.requestId s.waitingForConfirm },
            if r.error then RetryAction.retryAfter 10 data idx else RetryAction.noRetry) := by
  unfold IridiumInterface.on_message_sent
  rw [h]

/-- `__on_message_sent` on a response whose request is not pending raises
`KeyError` in `dict.pop`. -/
lemma on_message_sent_eq_none (s : IridiumState) (r : HTTPResponse)
    (h : lookupConfirm r.requestId s.waitingForConfirm = none) :
    IridiumInterface.on_message_sent s r = none := by
  unfold IridiumInterface.on_message_sent
  rw [h]

/-- The identity of the next request is never already a pending key. -/
lemma nextRequestId_fresh (s : IridiumState) (hinv : iridiumInv s) :
    s.nextRequestId ∉ s.waitingForConfirm.map Prod.fst :=
  fun hm => absurd (hinv.2 _ hm) (Nat.lt_irrefl _)

/-- C5: the `__waiting_for_confirm` correlation discipline. Under the
reachability invariant, `post_message` records `(idx, data)` under a key that
was not pending before; the invariant is preserved; the response handler for
that same request (success or failure alike) removes exactly that key — every
other binding is untouched, and a second response for the same request finds
nothing to remove; and the response handler of any different request leaves
the key's binding in place. -/
theorem iridium_pending_key_removed_once (s : IridiumState) (data : List Nat)
    (idx : Nat) (hinv : iridiumInv s) :
    lookupConfirm (IridiumInterface.post_message s data idx).2.id
      s.waitingForConfirm = none ∧
    lookupConfirm (IridiumInterface.post_message s data idx).2.id
      (IridiumInterface.post_message s data idx).1.waitingForConfirm =
      some (idx, data) ∧
    iridiumInv (IridiumInterface.post_message s data idx).1 ∧
    (∀ e : Bool, ∃ s2 : IridiumState,
      IridiumInterface.on_message_sent (IridiumInterface.post_message s data idx).1
          { requestId := (IridiumInterface.post_message s data idx).2.id, error := e } =
        some (s2, if e then RetryAction.retryAfter 10 data idx else RetryAction.noRetry) ∧
      lookupConfirm (IridiumInterface.post_message s data idx).2.id
        s2.waitingForConfirm = none ∧
      (∀ k : Nat, k ≠ (IridiumInterface.post_message s data idx).2.id →
        lookupConfirm k s2.waitingForConfirm =
          lookupConfirm k (IridiumInterface.post_message s data idx).1.waitingForConfirm) ∧
      IridiumInterface.on_message_sent s2
        { requestId := (IridiumInterface.post_message s data idx).2.id, error := e } =
        none) ∧
    (∀ r : HTTPResponse,
      r.requestId ≠ (IridiumInterface.post_message s data idx).2.id →
      ∀ (s2 : IridiumState) (act : RetryAction),
        IridiumInterface.on_message_sent
          (IridiumInterface.post_message s data idx).1 r = some (s2, act) →
        lookupConfirm (IridiumInterface.post_message s data idx).2.id
          s2.waitingForConfirm = some (idx, data)) := by
  have hfresh := nextRequestId_fresh s hinv
  have hc1 : lookupConfirm s.nextRequestId s.waitingForConfirm = none :=
    lookupConfirm_eq_none_of_not_mem _ _ hfresh
  have hc2 : lookupConfirm s.nextRequestId
      ((s.nextRequestId, idx, data) :: s.waitingForConfirm) = some (idx, data) :=
    lookupConfirm_cons_self _ _ _ _
  refine ⟨hc1, hc2, ⟨?_, ?_⟩, ?_, ?_⟩
  · exact List.nodup_cons.mpr ⟨hfresh, hinv.1⟩
  · intro k hk
    rcases List.mem_cons.mp hk with he | hm
    · exact he ▸ Nat.lt_succ_self _
    · exact Nat.lt_succ_of_lt (hinv.2 _ hm)
  · intro e
    refine ⟨{ (IridiumInterface.post_message s data idx).1 with
              waitingForConfirm := s.waitingForConfirm }, ?_, hc1, ?_, ?_⟩
    · rw [on_message_sent_eq_some _ _ idx data hc2]
      show some ({ (IridiumInterface.post_message s data idx).1 with
          waitingForConfirm := removeConfirm s.nextRequestId
            ((s.nextRequestId, idx, data) :: s.waitingForConfirm) },
          if e then RetryAction.retryAfter 10 data idx else RetryAction.noRetry) = _
      rw [removeConfirm_cons_self]
    · intro k hk
      show lookupConfirm k s.waitingForConfirm =
        lookupConfirm k ((s.nextRequestId, idx, data) :: s.waitingForConfirm)
      show _ = (if s.nextRequestId = k then some (idx, data)
                else lookupConfirm k s.waitingForConfirm)
      rw [if_neg (fun h => hk h.symm)]
    · exact on_message_sent_eq_none _ _ hc1
  · intro r hr s2 act hsome
    cases hl : lookupConfirm r.requestId
        (IridiumInterface.post_message s data idx).1.waitingForConfirm with
    | none =>
      rw [on_message_sent_eq_none _ _ hl] at hsome
      exact Option.noConfusion hsome
    | some v =>
      rw [on_message_sent_eq_some _ _ v.1 v.2 hl] at hsome
      have hpair := Option.some.inj hsome
      have hs2 : s2 = { (IridiumInterface.post_message s data idx).1 with
          waitingForConfirm := removeConfirm r.requestId
            (IridiumInterface.post_message s data idx).1.waitingForConfirm } :=
        (congrArg Prod.fst hpair).symm
      rw [hs2]
      show lookupConfirm s.nextRequestId (removeConfirm r.requestId _) = _
      rw [lookupConfirm_removeConfirm_ne r.requestId s.nextRequestId
        (fun h => hr h.symm)]
      exact hc2

/-- The invariant is decidable, so it can be checked on concrete states. -/
instance iridiumInvDecidable (s : IridiumState) : Decidable (iridiumInv s) := by
  unfold iridiumInv
  infer_instance

/-- C5, witness: a fresh interface with the three Rock7 credential fields;
the key of the first posted message is not pending before the post. -/
theorem iridium_pending_key_removed_once_witness :
    iridiumInv (IridiumInterface.init "https://rockblock.rock7.com" 8080
      [("imei", "300234010753370"), ("username", "user"), ("password", "pwd")]) ∧
    lookupConfirm
      (IridiumInterface.post_message
        (IridiumInterface.init "https://rockblock.rock7.com" 8080
          [("imei", "300234010753370"), ("username", "user"), ("password", "pwd")])
        [1, 2] 7).2.id
      (IridiumInterface.init "https://rockblock.rock7.com" 8080
        [("imei", "300234010753370"), ("username", "user"), ("password", "pwd")]).waitingForConfirm = none :=
  ⟨by decide,
   (iridium_pending_key_removed_once
     (IridiumInterface.init "https://rockblock.rock7.com" 8080
       [("imei", "300234010753370"), ("username", "user"), ("password", "pwd")])
     [1, 2] 7 (by decide)).1⟩

/-- One round of sustained delivery failure: `post_message(data, idx)` is
dispatched and its HTTP response comes back with `response.error` set, so
`__on_message_sent` runs on that same request. -/
def failRound (data : List Nat) (idx : Nat) (s : IridiumState) :
    Option (IridiumState × RetryAction) :=
  IridiumInterface.on_message_sent (IridiumInterface.post_message s data idx).1
    { requestId := (IridiumInterface.post_message s data idx).2.id, error := true }

/-- `n` consecutive failed rounds: each retry thread wakes after its fixed
sleep and re-enters `post_message` with the same `(data, idx)`, and the
provider keeps answering with an error. -/
def failRun (data : List Nat) (idx : Nat) (s : IridiumState) :
    Nat → Option IridiumState
  | 0 => some s
  | n + 1 =>
    match failRun data idx s n with
    | some s1 => (failRound data idx s1).map Prod.fst
    | none => none

/-- A failed round always succeeds in popping its own entry, schedules the
retry of the same `(data, idx)` after the fixed 10-second delay, and
preserves the correlation invariant. -/
lemma failRound_eq (s : IridiumState) (data : List Nat) (idx : Nat)
    (hinv : iridiumInv s) :
    failRound data idx s =
      some ({ s with postData := dictSet "data" (hexEncode data) s.postData,
                     nextRequestId := s.nextRequestId + 1 },
            RetryAction.retryAfter 10 data idx) ∧
    iridiumInv { s with postData := dictSet "data" (hexEncode data) s.postData,
                        nextRequestId := s.nextRequestId + 1 } := by
  have hc2 : lookupConfirm s.nextRequestId
      ((s.nextRequestId, idx, data) :: s.waitingForConfirm) = some (idx, data) :=
    lookupConfirm_cons_self _ _ _ _
  constructor
  · show IridiumInterface.on_message_sent _ _ = _
    rw [on_message_sent_eq_some _ _ idx data hc2]
    show some ({ (IridiumInterface.post_message s data idx).1 with
        waitingForConfirm := removeConfirm s.nextRequestId
          ((s.nextRequestId, idx, data) :: s.waitingForConfirm) },
        if true then RetryAction.retryAfter 10 data idx else RetryAction.noRetry) = _
    rw [removeConfirm_cons_self]
    rfl
  · exact ⟨hinv.1, fun k hk => Nat.lt_succ_of_lt (hinv.2 k hk)⟩

/-- C6: for every number `n` of already-sustained failures, the run is still
well defined, the invariant still holds, and the next failing delivery again
schedules a retry of the identical `(payload, sequenceIndex)` pair after the
fixed 10-second delay — retries repeat without any retry-count bound. -/
theorem iridium_retry_fixed_delay_unbounded (s : IridiumState) (data : List Nat)
    (idx : Nat) (hinv : iridiumInv s) (n : Nat) :
    ∃ s1 : IridiumState, failRun data idx s n = some s1 ∧ iridiumInv s1 ∧
      ∃ s2 : IridiumState,
        failRound data idx s1 = some (s2, RetryAction.retryAfter 10 data idx) := by
  induction n with
  | zero =>
    exact ⟨s, rfl, hinv, _, (failRound_eq s data idx hinv).1⟩
  | succ n ih =>
    obtain ⟨s1, hrun, hinv1, _⟩ := ih
    have hfr := failRound_eq s1 data idx hinv1
    refine ⟨{ s1 with postData := dictSet "data" (hexEncode data) s1.postData,
                      nextRequestId := s1.nextRequestId + 1 }, ?_, hfr.2, ?_⟩
    · show (match failRun data idx s n with
            | some t => (failRound data idx t).map Prod.fst
            | none => none) = _
      rw [hrun]
      show (failRound data idx s1).map Prod.fst = _
      rw [hfr.1]
      rfl
    · exact ⟨_, (failRound_eq _ data idx hfr.2).1⟩

/-- C6, witness: a fresh interface, payload `[202, 1]`, sequence index 7,
after 2 failed rounds. -/
theorem iridium_retry_fixed_delay_unbounded_witness :
    iridiumInv (IridiumInterface.init "https://rockblock.rock7.com" 8080
      [("imei", "300234010753370"), ("username", "user"), ("password", "pwd")]) ∧
    ∃ s1 : IridiumState,
      failRun [202, 1] 7
        (IridiumInterface.init "https://rockblock.rock7.com" 8080
          [("imei", "300234010753370"), ("username", "user"), ("password", "pwd")])
        2 = some s1 ∧ iridiumInv s1 ∧
      ∃ s2 : IridiumState,
        failRound [202, 1] 7 s1 = some (s2, RetryAction.retryAfter 10 [202, 1] 7) :=
  ⟨by decide,
   iridium_retry_fixed_delay_unbounded
     (IridiumInterface.init "https://rockblock.rock7.com" 8080
       [("imei", "300234010753370"), ("username", "user"), ("password", "pwd")])
     [202, 1] 7 (by decide) 2⟩

/-- C7: the inbound MO boundary. When the request carries a single `data`
form value that fails hex decoding, the handler answers 400, never invokes
the downstream callback, and — through the relay wiring — leaves the MQTT
state (and hence all relay state, since the handler touches no adapter field)
unchanged. When the value decodes, the callback receives exactly the decoded
bytes, the handler answers the default success status 200, and the wiring
forwards the bytes to `publish_satcom_message`. -/
theorem iridium_inbound_hex_gate (field : String)
    (args : List (String × List String)) (m : MqttState) (now : Nat)
    (hargs : lookupArg "data" args = some [field]) :
    (decodeHexStr field = none →
      postHandlerPost args = { status := 400, callbackPayload := none } ∧
      (iridiumInbound m now args).1 = m ∧
      (iridiumInbound m now args).2 = { status := 400, callbackPayload := none }) ∧
    (∀ msg : List Nat, decodeHexStr field = some msg →
      postHandlerPost args = { status := 200, callbackPayload := some msg } ∧
      (iridiumInbound m now args).2 = { status := 200, callbackPayload := some msg } ∧
      (iridiumInbound m now args).1 =
        (MqttInterface.publish_satcom_message m now msg).1) := by
  constructor
  · intro hdec
    have hpost : postHandlerPost args = { status := 400, callbackPayload := none } := by
      unfold postHandlerPost
      rw [hargs]
      show (match decodeHexStr field with
            | none => ({ status := 400, callbackPayload := none } : PostOutcome)
            | some msg => { status := 200, callbackPayload := some msg }) = _
      rw [hdec]
    refine ⟨hpost, ?_, ?_⟩
    · unfold iridiumInbound
      rw [hpost]
    · unfold iridiumInbound
      rw [hpost]
  · intro msg hdec
    have hpost : postHandlerPost args =
        { status := 200, callbackPayload := some msg } := by
      unfold postHandlerPost
      rw [hargs]
      show (match decodeHexStr field with
            | none => ({ status := 400, callbackPayload := none } : PostOutcome)
            | some msg => { status := 200, callbackPayload := some msg }) = _
      rw [hdec]
    refine ⟨hpost, ?_, ?_⟩
    · unfold iridiumInbound
      rw [hpost]
    · unfold iridiumInbound
      rw [hpost]

/-- C7, witness: the non-hex value `zz` is rejected with 400 and leaves the
MQTT state untouched; the value `6869` decodes to the bytes of `hi` and is
forwarded. -/
theorem iridium_inbound_hex_gate_witness :
    (decodeHexStr "zz" = none ∧
      ((iridiumInbound (MqttInterface.init "broker" 1883 "user" "pwd" 30 0) 9
          [("data", ["zz"])]).1 =
        MqttInterface.init "broker" 1883 "user" "pwd" 30 0)) ∧
    (decodeHexStr "6869" = some [104, 105] ∧
      ((iridiumInbound (MqttInterface.init "broker" 1883 "user" "pwd" 30 0) 9
          [("data", ["6869"])]).2 =
        { status := 200, callbackPayload := some [104, 105] })) :=
  ⟨⟨by decide,
    ((iridium_inbound_hex_gate "zz" [("data", ["zz"])]
        (MqttInterface.init "broker" 1883 "user" "pwd" 30 0) 9
        (by decide)).1 (by decide)).2.1⟩,
   ⟨by decide,
    ((iridium_inbound_hex_gate "6869" [("data", ["6869"])]
        (MqttInterface.init "broker" 1883 "user" "pwd" 30 0) 9
        (by decide)).2 [104, 105] (by decide)).2.1⟩⟩
